import Mathlib

/-!
Load-test scripts of the API-gateway rate-limit demo

A shallow embedding of `load-tests/no_rate_limiting_demo.js` and
`load-tests/redis_rate_limiting_demo.js` (k6 scripts), together with a model
of the server they drive.  The k6 primitives the scripts call (`http.get`,
`check`, `Rate.add`, the scenario options) are modelled with explicit state:
every effect of an iteration is recorded in a `K6State`.
-/

/-! ## k6 primitives used by the scripts -/

/-- An HTTP response as the scripts and the server see it: the numeric status
and the two informational headers the admission middleware may set. -/
structure HttpResponse where
  status : Nat
  remainingHeader : Option Int
  retryAfterHeader : Option Nat
deriving DecidableEq, Repr

/-- The value k6 hands to the default function and the script hands on to
`http.get` as request parameters (`authHeaderParams`): a list of headers, or
nothing when no setup data exists. -/
abbrev Params := Option (List (String × String))

/-- The system under test as seen from a script: answering one GET changes its
state and yields a response. -/
abbrev HttpEnv (σ : Type) := σ → String → Params → σ × HttpResponse

/-- State of a k6 run: the system under test, the URLs requested with
`http.get` (oldest first) and the samples added to custom metrics (metric
name and value, oldest first). -/
structure K6State (σ : Type) where
  world : σ
  gets : List String
  samples : List (String × Bool)

/-- The k6 call `http.get(url, params)`: one GET against the system under
test, recorded in the run state. -/
def httpGet {σ : Type} (env : HttpEnv σ) (url : String) (params : Params)
    (st : K6State σ) : HttpResponse × K6State σ :=
  let out := env st.world url params
  (out.2, { st with world := out.1, gets := st.gets ++ [url] })

/-- The k6 call `check(val, sets)`: runs every named condition on `val`; it
returns false if any of the specified conditions fail. -/
def check {α : Type} (val : α) (sets : List (String × (α → Bool))) : Bool :=
  sets.all (fun c => c.2 val)

/-- A custom k6 metric created with `new Rate(name)`. -/
structure Rate where
  name : String
deriving DecidableEq, Repr

/-- The k6 call `rate.add(value)`: one sample for the metric. -/
def Rate.add {σ : Type} (m : Rate) (value : Bool) (st : K6State σ) : K6State σ :=
  { st with samples := st.samples ++ [(m.name, value)] }

/-- The samples a run state holds for one metric, oldest first. -/
def samplesOf {σ : Type} (name : String) (st : K6State σ) : List Bool :=
  (st.samples.filter (fun p => p.1 == name)).map (fun p => p.2)

/-- One entry of `options.scenarios`. -/
structure Scenario where
  executor : String
  rate : Nat
  timeUnit : String
  duration : String
  preAllocatedVUs : Nat
  maxVUs : Nat
deriving DecidableEq, Repr

/-- The exported `options` object of a script. -/
structure Options where
  scenarios : List (String × Scenario)
deriving DecidableEq, Repr

/-- Value of a run of decimal digits. -/
def digitsValue (cs : List Char) : Nat :=
  cs.foldl (fun acc c => 10 * acc + (c.toNat - 48)) 0

/-- Seconds denoted by a k6 duration string of the form `<digits>s`, the only
form the scripts use. -/
def parseSeconds (s : String) : Option Nat :=
  match s.toList.reverse with
  | 's' :: ds =>
    if ds ≠ [] ∧ ds.all Char.isDigit then some (digitsValue ds.reverse) else none
  | _ => none

/-- Iterations a `constant-arrival-rate` scenario schedules: `rate` iterations
are started every `timeUnit` for the whole `duration`. -/
def scheduledIterations (sc : Scenario) : Option Nat :=
  if sc.executor = "constant-arrival-rate" then
    match parseSeconds sc.timeUnit, parseSeconds sc.duration with
    | some tu, some d => if tu = 0 then none else some (sc.rate * d / tu)
    | _, _ => none
  else none

/-- Repeats one iteration function `n` times. -/
def iterations {σ : Type} (step : K6State σ → K6State σ) : Nat → K6State σ → K6State σ
  | 0, st => st
  | n + 1, st => iterations step n (step st)

/-- A run state before the first iteration. -/
def K6State.init {σ : Type} (w : σ) : K6State σ :=
  { world := w, gets := [], samples := [] }

/-! ## `no_rate_limiting_demo.js` -/

namespace no_rate_limiting_demo

def options : Options :=
  { scenarios :=
      [("constant_request_rate",
        { executor := "constant-arrival-rate"
          rate := 20
          timeUnit := "1s"
          duration := "5s"
          preAllocatedVUs := 20
          maxVUs := 20 })] }

def failureRate : Rate := { name := "check_failure_rate" }

/-- The single check of the script. -/
def checks : List (String × (HttpResponse → Bool)) :=
  [("we expect all requests to pass", fun r => r.status == 200)]

/-- The exported default function: one iteration of the script. -/
def default {σ : Type} (env : HttpEnv σ) (authHeaderParams : Params)
    (st : K6State σ) : K6State σ :=
  let got := httpGet env "http://localhost:8080/no-rate-limiter" authHeaderParams st
  let response := got.1
  let checkRes := check response checks
  failureRate.add (!checkRes) got.2

end no_rate_limiting_demo

/-! ## `redis_rate_limiting_demo.js` -/

namespace redis_rate_limiting_demo

def options : Options :=
  { scenarios :=
      [("constant_request_rate",
        { executor := "constant-arrival-rate"
          rate := 20
          timeUnit := "1s"
          duration := "5s"
          preAllocatedVUs := 20
          maxVUs := 20 })] }

def failureRate : Rate := { name := "all_errors_failure_rate" }

def errorRateHittingLimit : Rate := { name := "429_failure_rate" }

/-- The first check of the script. -/
def passChecks : List (String × (HttpResponse → Bool)) :=
  [("we expect all requests to pass", fun r => r.status == 200)]

/-- The second check of the script. -/
def limitChecks : List (String × (HttpResponse → Bool)) :=
  [("we expect some requests to return 429", fun r => r.status == 429)]

/-- The exported default function: one iteration of the script. -/
def default {σ : Type} (env : HttpEnv σ) (authHeaderParams : Params)
    (st : K6State σ) : K6State σ :=
  let got := httpGet env "http://localhost:8080/redis-rate-limiter" authHeaderParams st
  let response := got.1
  let checkRes := check response passChecks
  let rateLimitCheck := check response limitChecks
  errorRateHittingLimit.add rateLimitCheck (failureRate.add (!checkRes) got.2)

end redis_rate_limiting_demo

/-! ## The server behind the two endpoints

The repository's server is not among the load-test sources; the definitions of
this section follow the specification of the rate limiter the scripts drive.
Times are milliseconds on the store's clock. -/

/-- Modelled from the spec: the RateLimitKey of the data model, an opaque
string identifying the caller. -/
abbrev RateLimitKey := String

/-- Modelled from the spec: the per-key Window State held in the Counter
Store, `{count, windowStart, expiresAt}`. -/
structure WindowState where
  count : Nat
  windowStart : Nat
  expiresAt : Nat
deriving DecidableEq, Repr

/-- Modelled from the spec: the Counter Store, at most one logical entry per
key. -/
abbrev CounterStore := RateLimitKey → Option WindowState

/-- Modelled from the spec: the `remaining` field of a Decision, an integer,
or unbounded for the No-Limit Passthrough. -/
inductive Remaining where
  | finite (n : Int)
  | unbounded
deriving DecidableEq, Repr

/-- Modelled from the spec: the Decision of the data model,
`{allowed, remaining, retryAfterMillis}`. -/
structure Decision where
  allowed : Bool
  remaining : Remaining
  retryAfterMillis : Nat
deriving DecidableEq, Repr

/-- Modelled from the spec: the Policy Configuration `{limit, windowMillis}`. -/
structure PolicyConfiguration where
  limit : Nat
  windowMillis : Nat
deriving DecidableEq, Repr

/-- Modelled from the spec: the infrastructure failures of the Counter Store
Client. -/
inductive StoreError where
  | StoreUnavailable
  | StoreTimeout
deriving DecidableEq, Repr

/-- Modelled from the spec: the configurable fail policy of the Limiter Core
(`FAIL_POLICY`, `open` or `closed`). -/
inductive FailPolicy where
  | failOpen
  | failClosed
deriving DecidableEq, Repr

/-- Modelled from the spec: a request as the server receives it. Besides the
path and the caller's remote address it carries what the environment decides
for it: the instant at which the store serves it and whether its store call
fails. -/
structure Request where
  path : String
  remoteAddr : String
  now : Nat
  fault : Option StoreError
deriving DecidableEq, Repr

/-- Modelled from the spec: the configuration surface of the server: the
policy configuration, the fail policy and the injected key-extraction
function. -/
structure ServerConfig where
  policy : PolicyConfiguration
  failPolicy : FailPolicy
  extractKey : Request → RateLimitKey

/-- Modelled from the spec: the default key extraction, the remote-address
string. -/
def remoteAddressKey (req : Request) : RateLimitKey := req.remoteAddr

/-- Modelled from the spec: expired entries are treated as absent; the entry
of `key` that is still active at `now`, if any. -/
def liveEntry (s : CounterStore) (now : Nat) (key : RateLimitKey) : Option WindowState :=
  match s key with
  | some e => if now < e.expiresAt then some e else none
  | none => none

/-- Modelled from the spec: the Counter Store's write of the single entry of
one key. -/
def CounterStore.put (s : CounterStore) (key : RateLimitKey) (e : WindowState) :
    CounterStore :=
  fun k => if k = key then some e else s k

/-- Modelled from the spec: the atomic `IncrementAndGet(key, windowMillis)` of
the Counter Store Client, returning `(count, ttlRemainingMillis)`. The first
call for a key (or the first after expiry) initialises the entry with
count = 1 and TTL = windowMillis in the same step. -/
def IncrementAndGet (s : CounterStore) (now : Nat) (key : RateLimitKey)
    (windowMillis : Nat) : CounterStore × (Nat × Nat) :=
  match liveEntry s now key with
  | some e =>
    (s.put key { e with count := e.count + 1 }, (e.count + 1, e.expiresAt - now))
  | none =>
    (s.put key { count := 1, windowStart := now, expiresAt := now + windowMillis },
      (1, windowMillis))

/-- Modelled from the spec: one call of the Counter Store Client. It fails
with `StoreUnavailable` or `StoreTimeout` when the environment makes the store
call of this request fail; a failed call leaves the store as it was. -/
def storeCall (fault : Option StoreError) (s : CounterStore) (now : Nat)
    (key : RateLimitKey) (windowMillis : Nat) :
    CounterStore × Except StoreError (Nat × Nat) :=
  match fault with
  | some e => (s, .error e)
  | none =>
    let r := IncrementAndGet s now key windowMillis
    (r.1, .ok r.2)

/-- Modelled from the spec: the Rate Limit Policy `Evaluate(currentCount,
limit)` with fixed-window semantics: allowed = currentCount ≤ limit,
remaining = max(0, limit − currentCount), retryAfterMillis =
ttlRemainingMillis when denied, else 0. -/
def Evaluate (currentCount limit ttlRemainingMillis : Nat) : Decision :=
  let allowed := decide (currentCount ≤ limit)
  { allowed := allowed
    remaining := .finite (max 0 ((limit : Int) - (currentCount : Int)))
    retryAfterMillis := if allowed then 0 else ttlRemainingMillis }

/-- Modelled from the spec: the Decision the fail policy turns a store
failure into: fail-open allows the request, fail-closed denies it. The spec
leaves `remaining` and `retryAfterMillis` of these decisions open; both are 0
here. -/
def failDecision : FailPolicy → Decision
  | .failOpen => { allowed := true, remaining := .finite 0, retryAfterMillis := 0 }
  | .failClosed => { allowed := false, remaining := .finite 0, retryAfterMillis := 0 }

/-- Modelled from the spec: the Limiter Core `CheckAndConsume(key)`, returning
`(Decision, error)`: one atomic store increment, then the policy on success or
the fail policy on a store failure. -/
def CheckAndConsume (policy : PolicyConfiguration) (failPolicy : FailPolicy)
    (s : CounterStore) (now : Nat) (fault : Option StoreError) (key : RateLimitKey) :
    CounterStore × (Decision × Option StoreError) :=
  match storeCall fault s now key policy.windowMillis with
  | (s', .ok (count, ttl)) => (s', (Evaluate count policy.limit ttl, none))
  | (s', .error e) => (s', (failDecision failPolicy, some e))

/-- Modelled from the spec: the No-Limit Passthrough, which always returns
`allowed = true, remaining = ∞` without touching the store. -/
def NoLimitPassthrough (s : CounterStore) : CounterStore × Decision :=
  (s, { allowed := true, remaining := .unbounded, retryAfterMillis := 0 })

/-- Modelled from the spec: the downstream handler of the two demo endpoints,
which answers `200 OK`. -/
def demoHandler (_req : Request) : HttpResponse :=
  { status := 200, remainingHeader := none, retryAfterHeader := none }

/-- Modelled from the spec: the response of the Admission Middleware for a
decision: the downstream handler's response when allowed; otherwise HTTP 429
with headers exposing `remaining` and `retryAfterMillis`, without invoking the
handler. -/
def admissionResponse (H : Request → HttpResponse) (req : Request) (d : Decision) :
    HttpResponse :=
  if d.allowed then H req
  else
    { status := 429
      remainingHeader := match d.remaining with
        | .finite n => some n
        | .unbounded => none
      retryAfterHeader := some d.retryAfterMillis }

/-- What the server did with one request: the limiter decision, when the
request reached a limiter, and the HTTP response. -/
structure Served where
  decision : Option Decision
  response : HttpResponse
deriving DecidableEq, Repr

/-- Modelled from the spec: the HTTP surface. `GET /no-rate-limiter` goes
through the No-Limit Passthrough, `GET /redis-rate-limiter` through the
Limiter Core with the key extracted from the request; any other path is not
found. -/
def handle (cfg : ServerConfig) (s : CounterStore) (req : Request) :
    CounterStore × Served :=
  if req.path = "/no-rate-limiter" then
    let out := NoLimitPassthrough s
    (out.1, { decision := some out.2, response := admissionResponse demoHandler req out.2 })
  else if req.path = "/redis-rate-limiter" then
    let out := CheckAndConsume cfg.policy cfg.failPolicy s req.now req.fault
      (cfg.extractKey req)
    (out.1, { decision := some out.2.1,
              response := admissionResponse demoHandler req out.2.1 })
  else
    (s, { decision := none,
          response := { status := 404, remainingHeader := none, retryAfterHeader := none } })

/-- Modelled from the spec: the server answering a sequence of requests in the
order in which the store serves them (per key the store linearises the
increments, each request being one atomic round-trip), returning the final
store and what was done with each request. -/
def serve (cfg : ServerConfig) : CounterStore → List Request → CounterStore × List Served
  | s, [] => (s, [])
  | s, req :: rest =>
    let out := handle cfg s req
    let tail := serve cfg out.1 rest
    (tail.1, out.2 :: tail.2)

/-- The store in which no key has an entry. -/
def CounterStore.empty : CounterStore := fun _ => none

/-- Number of requests of a served sequence answered with the given status. -/
def countStatus (status : Nat) (out : List Served) : Nat :=
  (out.filter (fun x => x.response.status == status)).length

/-- What the redis endpoint records for a request whose store call returned
`count` and `ttl`. -/
def servedWith (cfg : ServerConfig) (req : Request) (count ttl : Nat) : Served :=
  { decision := some (Evaluate count cfg.policy.limit ttl)
    response := admissionResponse demoHandler req (Evaluate count cfg.policy.limit ttl) }

/-- The origin at which the scripts address the server. -/
def origin : String := "http://localhost:8080"

/-- Path of a URL at the server's origin; `none` for a URL elsewhere. -/
def pathOf (url : String) : Option String :=
  if url.toList.take origin.length = origin.toList then
    some (String.mk (url.toList.drop origin.length))
  else none

/-- What the environment decides for one request of a script: the caller's
remote address, the instant at which the store serves the request and whether
its store call fails. -/
structure Ambient where
  remoteAddr : String
  now : Nat
  fault : Option StoreError
deriving DecidableEq, Repr

/-- The server as a system under test: its store and the number of requests it
has answered. -/
structure ServerWorld where
  store : CounterStore
  served : Nat

/-- Modelled from the spec: the server seen from a script: the `i`-th request
it answers is served under `ambient i`. A URL at another origin gets no HTTP answer, which k6
reports as status 0. -/
def serverEnv (cfg : ServerConfig) (ambient : Nat → Ambient) : HttpEnv ServerWorld :=
  fun w url _params =>
    match pathOf url with
    | some p =>
      let a := ambient w.served
      let out := handle cfg w.store
        { path := p, remoteAddr := a.remoteAddr, now := a.now, fault := a.fault }
      ({ store := out.1, served := w.served + 1 }, out.2.response)
    | none => (w, { status := 0, remainingHeader := none, retryAfterHeader := none })

/-- A server configuration with the default key extraction and a window of one
second. -/
def demoConfig (limit : Nat) (failPolicy : FailPolicy) : ServerConfig :=
  { policy := { limit := limit, windowMillis := 1000 }
    failPolicy := failPolicy
    extractKey := remoteAddressKey }

/-- A request to `/redis-rate-limiter` from the caller `a`. -/
def redisRequest (now : Nat) (fault : Option StoreError) : Request :=
  { path := "/redis-rate-limiter", remoteAddr := "a", now := now, fault := fault }

/-- A request to `/no-rate-limiter` from the caller `a`. -/
def plainRequest (now : Nat) (fault : Option StoreError) : Request :=
  { path := "/no-rate-limiter", remoteAddr := "a", now := now, fault := fault }

/-! ## The scripts: what one iteration records -/

theorem check_single {α : Type} (val : α) (name : String) (cond : α → Bool) :
    check val [(name, cond)] = cond val := by
  simp [check]

theorem no_default_samples {σ : Type} (env : HttpEnv σ) (params : Params) (st : K6State σ) :
    (no_rate_limiting_demo.default env params st).samples =
      st.samples ++ [("check_failure_rate",
        !(check (env st.world "http://localhost:8080/no-rate-limiter" params).2
            no_rate_limiting_demo.checks))] := by
  rfl

theorem redis_default_samples {σ : Type} (env : HttpEnv σ) (params : Params)
    (st : K6State σ) :
    (redis_rate_limiting_demo.default env params st).samples =
      st.samples ++
        [("all_errors_failure_rate",
            !(check (env st.world "http://localhost:8080/redis-rate-limiter" params).2
                redis_rate_limiting_demo.passChecks)),
         ("429_failure_rate",
            check (env st.world "http://localhost:8080/redis-rate-limiter" params).2
                redis_rate_limiting_demo.limitChecks)] := by
  simp [redis_rate_limiting_demo.default, Rate.add, httpGet,
    redis_rate_limiting_demo.failureRate, redis_rate_limiting_demo.errorRateHittingLimit]

theorem samplesOf_append_same {σ : Type} (name : String) (st st' : K6State σ) (b : Bool)
    (h : st'.samples = st.samples ++ [(name, b)]) :
    samplesOf name st' = samplesOf name st ++ [b] := by
  simp [samplesOf, h, List.filter_append]

theorem redis_samplesOf_all {σ : Type} (env : HttpEnv σ) (params : Params)
    (st : K6State σ) :
    samplesOf "all_errors_failure_rate" (redis_rate_limiting_demo.default env params st) =
      samplesOf "all_errors_failure_rate" st ++
        [!(check (env st.world "http://localhost:8080/redis-rate-limiter" params).2
            redis_rate_limiting_demo.passChecks)] := by
  have hne : ("429_failure_rate" == "all_errors_failure_rate") = false := by decide
  simp [samplesOf, redis_default_samples, List.filter_append, List.filter_cons, hne]

theorem redis_samplesOf_limit {σ : Type} (env : HttpEnv σ) (params : Params)
    (st : K6State σ) :
    samplesOf "429_failure_rate" (redis_rate_limiting_demo.default env params st) =
      samplesOf "429_failure_rate" st ++
        [check (env st.world "http://localhost:8080/redis-rate-limiter" params).2
            redis_rate_limiting_demo.limitChecks] := by
  have hne : ("all_errors_failure_rate" == "429_failure_rate") = false := by decide
  simp [samplesOf, redis_default_samples, List.filter_append, List.filter_cons, hne]

theorem no_samplesOf {σ : Type} (env : HttpEnv σ) (params : Params) (st : K6State σ) :
    samplesOf "check_failure_rate" (no_rate_limiting_demo.default env params st) =
      samplesOf "check_failure_rate" st ++
        [!(check (env st.world "http://localhost:8080/no-rate-limiter" params).2
            no_rate_limiting_demo.checks)] :=
  samplesOf_append_same _ _ _ _ (no_default_samples env params st)

/-- C1: in both scripts the sample the default function adds to the
failure-rate metric (`check_failure_rate`, resp. `all_errors_failure_rate`) is
the negated check result, which is true exactly when the response status is
not 200; and `check` with a single condition returns false exactly when that
condition fails. -/
theorem failure_sample_negates_check {σ : Type} (env : HttpEnv σ) (params : Params)
    (st : K6State σ) :
    (samplesOf "check_failure_rate" (no_rate_limiting_demo.default env params st) =
        samplesOf "check_failure_rate" st ++
          [!(check (env st.world "http://localhost:8080/no-rate-limiter" params).2
              no_rate_limiting_demo.checks)]
      ∧ ((!(check (env st.world "http://localhost:8080/no-rate-limiter" params).2
              no_rate_limiting_demo.checks)) = true
          ↔ (env st.world "http://localhost:8080/no-rate-limiter" params).2.status ≠ 200))
    ∧ (samplesOf "all_errors_failure_rate"
          (redis_rate_limiting_demo.default env params st) =
        samplesOf "all_errors_failure_rate" st ++
          [!(check (env st.world "http://localhost:8080/redis-rate-limiter" params).2
              redis_rate_limiting_demo.passChecks)]
      ∧ ((!(check (env st.world "http://localhost:8080/redis-rate-limiter" params).2
              redis_rate_limiting_demo.passChecks)) = true
          ↔ (env st.world "http://localhost:8080/redis-rate-limiter" params).2.status ≠ 200))
    ∧ (∀ (r : HttpResponse) (name : String),
        check r [(name, fun r => r.status == 200)] = false ↔ ¬ r.status = 200) := by
  refine ⟨⟨no_samplesOf env params st, ?_⟩, ⟨redis_samplesOf_all env params st, ?_⟩, ?_⟩
  · simp [no_rate_limiting_demo.checks, check]
  · simp [redis_rate_limiting_demo.passChecks, check]
  · intro r name
    simp [check]

/-- C2: in `redis_rate_limiting_demo.js` the sample the default function adds
to `429_failure_rate` is the un-negated result of the check `we expect some
requests to return 429`; it is true exactly when the response status is
429. -/
theorem limit_sample_counts_429 {σ : Type} (env : HttpEnv σ) (params : Params)
    (st : K6State σ) :
    samplesOf "429_failure_rate" (redis_rate_limiting_demo.default env params st) =
        samplesOf "429_failure_rate" st ++
          [check (env st.world "http://localhost:8080/redis-rate-limiter" params).2
            [("we expect some requests to return 429", fun r => r.status == 429)]]
    ∧ (check (env st.world "http://localhost:8080/redis-rate-limiter" params).2
            [("we expect some requests to return 429", fun r => r.status == 429)] = true
        ↔ (env st.world "http://localhost:8080/redis-rate-limiter" params).2.status = 429) := by
  refine ⟨redis_samplesOf_limit env params st, ?_⟩
  simp [check]

/-- C3: both scripts declare equal options with exactly one scenario, a
constant-arrival-rate executor starting 20 iterations per 1s time unit for 5s
(100 scheduled iterations in total) with preAllocatedVUs = maxVUs = 20. -/
theorem options_same_load :
    no_rate_limiting_demo.options = redis_rate_limiting_demo.options
    ∧ redis_rate_limiting_demo.options.scenarios.length = 1
    ∧ ∀ p ∈ redis_rate_limiting_demo.options.scenarios,
        p.2.executor = "constant-arrival-rate"
        ∧ p.2.rate = 20
        ∧ p.2.timeUnit = "1s" ∧ parseSeconds p.2.timeUnit = some 1
        ∧ p.2.duration = "5s" ∧ parseSeconds p.2.duration = some 5
        ∧ scheduledIterations p.2 = some (20 * 5)
        ∧ scheduledIterations p.2 = some 100
        ∧ p.2.preAllocatedVUs = 20 ∧ p.2.maxVUs = 20 := by
  decide

theorem no_default_gets {σ : Type} (env : HttpEnv σ) (params : Params) (st : K6State σ) :
    (no_rate_limiting_demo.default env params st).gets =
      st.gets ++ ["http://localhost:8080/no-rate-limiter"] := by
  rfl

theorem redis_default_gets {σ : Type} (env : HttpEnv σ) (params : Params)
    (st : K6State σ) :
    (redis_rate_limiting_demo.default env params st).gets =
      st.gets ++ ["http://localhost:8080/redis-rate-limiter"] := by
  rfl

theorem no_iterations_gets {σ : Type} (env : HttpEnv σ) (params : Params) (n : Nat)
    (st : K6State σ) :
    (iterations (no_rate_limiting_demo.default env params) n st).gets =
      st.gets ++ List.replicate n "http://localhost:8080/no-rate-limiter" := by
  induction n generalizing st with
  | zero => simp [iterations]
  | succ n ih =>
    rw [iterations, ih, no_default_gets, List.replicate_succ, List.append_assoc]
    rfl

theorem redis_iterations_gets {σ : Type} (env : HttpEnv σ) (params : Params) (n : Nat)
    (st : K6State σ) :
    (iterations (redis_rate_limiting_demo.default env params) n st).gets =
      st.gets ++ List.replicate n "http://localhost:8080/redis-rate-limiter" := by
  induction n generalizing st with
  | zero => simp [iterations]
  | succ n ih =>
    rw [iterations, ih, redis_default_gets, List.replicate_succ, List.append_assoc]
    rfl

theorem redis_iterations_counts {σ : Type} (env : HttpEnv σ) (params : Params) (n : Nat)
    (st : K6State σ)
    (h : (samplesOf "429_failure_rate" st).count true ≤
      (samplesOf "all_errors_failure_rate" st).count true) :
    (samplesOf "429_failure_rate"
        (iterations (redis_rate_limiting_demo.default env params) n st)).count true ≤
      (samplesOf "all_errors_failure_rate"
        (iterations (redis_rate_limiting_demo.default env params) n st)).count true := by
  induction n generalizing st with
  | zero => simpa [iterations] using h
  | succ n ih =>
    rw [iterations]
    apply ih
    rw [redis_samplesOf_limit, redis_samplesOf_all, List.count_append, List.count_append]
    have hstep : ([check (env st.world "http://localhost:8080/redis-rate-limiter" params).2
          redis_rate_limiting_demo.limitChecks].count true) ≤
        ([!(check (env st.world "http://localhost:8080/redis-rate-limiter" params).2
          redis_rate_limiting_demo.passChecks)].count true) := by
      by_cases h429 : (env st.world "http://localhost:8080/redis-rate-limiter" params).2.status = 429
      · simp [check, redis_rate_limiting_demo.limitChecks,
          redis_rate_limiting_demo.passChecks, h429]
      · simp [check, redis_rate_limiting_demo.limitChecks, h429]
    omega

/-- C7: every call of a script's default function performs exactly one HTTP
GET, to that script's endpoint, and adds exactly one sample to each metric of
the script (`check_failure_rate`; `all_errors_failure_rate` and
`429_failure_rate`) and no other sample; over any number of iterations neither
script requests the other script's endpoint. -/
theorem one_get_one_sample_per_iteration {σ : Type} (env : HttpEnv σ) (params : Params)
    (st : K6State σ) :
    ((no_rate_limiting_demo.default env params st).gets =
        st.gets ++ ["http://localhost:8080/no-rate-limiter"]
      ∧ (samplesOf "check_failure_rate"
            (no_rate_limiting_demo.default env params st)).length =
          (samplesOf "check_failure_rate" st).length + 1
      ∧ (no_rate_limiting_demo.default env params st).samples.length =
          st.samples.length + 1)
    ∧ ((redis_rate_limiting_demo.default env params st).gets =
        st.gets ++ ["http://localhost:8080/redis-rate-limiter"]
      ∧ (samplesOf "all_errors_failure_rate"
            (redis_rate_limiting_demo.default env params st)).length =
          (samplesOf "all_errors_failure_rate" st).length + 1
      ∧ (samplesOf "429_failure_rate"
            (redis_rate_limiting_demo.default env params st)).length =
          (samplesOf "429_failure_rate" st).length + 1
      ∧ (redis_rate_limiting_demo.default env params st).samples.length =
          st.samples.length + 2)
    ∧ ∀ (n : Nat) (w : σ),
        (iterations (no_rate_limiting_demo.default env params) n (K6State.init w)).gets =
            List.replicate n "http://localhost:8080/no-rate-limiter"
        ∧ "http://localhost:8080/redis-rate-limiter" ∉
            (iterations (no_rate_limiting_demo.default env params) n (K6State.init w)).gets
        ∧ (iterations (redis_rate_limiting_demo.default env params) n (K6State.init w)).gets =
            List.replicate n "http://localhost:8080/redis-rate-limiter"
        ∧ "http://localhost:8080/no-rate-limiter" ∉
            (iterations (redis_rate_limiting_demo.default env params) n (K6State.init w)).gets := by
  refine ⟨⟨no_default_gets env params st, ?_, ?_⟩,
    ⟨redis_default_gets env params st, ?_, ?_, ?_⟩, ?_⟩
  · rw [no_samplesOf]; simp
  · rw [no_default_samples]; simp
  · rw [redis_samplesOf_all]; simp
  · rw [redis_samplesOf_limit]; simp
  · rw [redis_default_samples]; simp
  · intro n w
    have h1 : (iterations (no_rate_limiting_demo.default env params) n
        (K6State.init w)).gets = List.replicate n "http://localhost:8080/no-rate-limiter" := by
      rw [no_iterations_gets]; rfl
    have h2 : (iterations (redis_rate_limiting_demo.default env params) n
        (K6State.init w)).gets = List.replicate n "http://localhost:8080/redis-rate-limiter" := by
      rw [redis_iterations_gets]; rfl
    refine ⟨h1, ?_, h2, ?_⟩
    · rw [h1]
      intro hmem
      exact absurd (List.eq_of_mem_replicate hmem) (by decide)
    · rw [h2]
      intro hmem
      exact absurd (List.eq_of_mem_replicate hmem) (by decide)

/-- C8: in `redis_rate_limiting_demo.js` the two checks never both pass on a
response; the default function adds the samples `!checkRes` and
`rateLimitCheck`, and whenever the latter (for `429_failure_rate`) is true the
former (for `all_errors_failure_rate`) is true; hence after any number of
iterations `429_failure_rate` holds at most as many true samples as
`all_errors_failure_rate`. -/
theorem limit_hits_within_all_errors {σ : Type} (env : HttpEnv σ) (params : Params) :
    (∀ r : HttpResponse,
        ¬ (check r redis_rate_limiting_demo.passChecks = true
            ∧ check r redis_rate_limiting_demo.limitChecks = true))
    ∧ (∀ st : K6State σ,
        (redis_rate_limiting_demo.default env params st).samples =
          st.samples ++
            [("all_errors_failure_rate",
                !(check (env st.world "http://localhost:8080/redis-rate-limiter" params).2
                    redis_rate_limiting_demo.passChecks)),
             ("429_failure_rate",
                check (env st.world "http://localhost:8080/redis-rate-limiter" params).2
                    redis_rate_limiting_demo.limitChecks)]
        ∧ (check (env st.world "http://localhost:8080/redis-rate-limiter" params).2
              redis_rate_limiting_demo.limitChecks = true →
            (!(check (env st.world "http://localhost:8080/redis-rate-limiter" params).2
              redis_rate_limiting_demo.passChecks)) = true))
    ∧ ∀ (n : Nat) (w : σ),
        (samplesOf "429_failure_rate"
            (iterations (redis_rate_limiting_demo.default env params) n
              (K6State.init w))).count true ≤
          (samplesOf "all_errors_failure_rate"
            (iterations (redis_rate_limiting_demo.default env params) n
              (K6State.init w))).count true := by
  refine ⟨?_, ?_, ?_⟩
  · intro r
    simp only [check_single, redis_rate_limiting_demo.passChecks,
      redis_rate_limiting_demo.limitChecks, beq_iff_eq]
    omega
  · intro st
    refine ⟨redis_default_samples env params st, ?_⟩
    simp only [check_single, redis_rate_limiting_demo.passChecks,
      redis_rate_limiting_demo.limitChecks, beq_iff_eq, Bool.not_eq_true', beq_eq_false_iff_ne]
    omega
  · intro n w
    exact redis_iterations_counts env params n (K6State.init w) (by simp [samplesOf, K6State.init])

/-! ## The server: one request -/

theorem pathOf_no_rate_limiter :
    pathOf "http://localhost:8080/no-rate-limiter" = some "/no-rate-limiter" := by
  decide

theorem handle_no_rate_limiter (cfg : ServerConfig) (s : CounterStore) (req : Request)
    (hpath : req.path = "/no-rate-limiter") :
    handle cfg s req =
      (s, { decision := some { allowed := true, remaining := .unbounded,
                               retryAfterMillis := 0 }
            response := { status := 200, remainingHeader := none,
                          retryAfterHeader := none } }) := by
  simp [handle, hpath, NoLimitPassthrough, admissionResponse, demoHandler]

theorem handle_redis_live (cfg : ServerConfig) (s : CounterStore) (req : Request)
    (e : WindowState) (hpath : req.path = "/redis-rate-limiter")
    (hfault : req.fault = none) (hentry : s (cfg.extractKey req) = some e)
    (hlive : req.now < e.expiresAt) :
    handle cfg s req =
      (s.put (cfg.extractKey req) { e with count := e.count + 1 },
        servedWith cfg req (e.count + 1) (e.expiresAt - req.now)) := by
  have hne : ¬ ("/redis-rate-limiter" = "/no-rate-limiter") := by decide
  simp [handle, hpath, hne, CheckAndConsume, storeCall, hfault, IncrementAndGet, liveEntry,
    hentry, hlive, servedWith]

theorem handle_redis_fresh (cfg : ServerConfig) (s : CounterStore) (req : Request)
    (hpath : req.path = "/redis-rate-limiter") (hfault : req.fault = none)
    (hfresh : liveEntry s req.now (cfg.extractKey req) = none) :
    handle cfg s req =
      (s.put (cfg.extractKey req)
          { count := 1, windowStart := req.now,
            expiresAt := req.now + cfg.policy.windowMillis },
        servedWith cfg req 1 cfg.policy.windowMillis) := by
  have hne : ¬ ("/redis-rate-limiter" = "/no-rate-limiter") := by decide
  simp [handle, hpath, hne, CheckAndConsume, storeCall, hfault, IncrementAndGet, hfresh,
    servedWith]

theorem liveEntry_none_mono (s : CounterStore) (k : RateLimitKey) (t0 t : Nat)
    (hfresh : liveEntry s t0 k = none) (ht : t0 ≤ t) : liveEntry s t k = none := by
  unfold liveEntry at hfresh ⊢
  cases hs : s k with
  | none => rfl
  | some e =>
    simp only [hs] at hfresh ⊢
    by_cases hlt : t0 < e.expiresAt
    · simp [hlt] at hfresh
    · have : ¬ t < e.expiresAt := by omega
      simp [this]

theorem servedWith_status (cfg : ServerConfig) (req : Request) (count ttl : Nat) :
    (servedWith cfg req count ttl).response.status =
      if count ≤ cfg.policy.limit then 200 else 429 := by
  by_cases h : count ≤ cfg.policy.limit <;>
    simp [servedWith, admissionResponse, Evaluate, demoHandler, h]

theorem servedWith_allowed (cfg : ServerConfig) (req : Request) (count ttl : Nat) :
    (servedWith cfg req count ttl).decision.map (fun d => d.allowed) =
      some (decide (count ≤ cfg.policy.limit)) := by
  simp [servedWith, Evaluate]

theorem servedWith_remaining (cfg : ServerConfig) (req : Request) (count ttl : Nat) :
    (servedWith cfg req count ttl).decision.map (fun d => d.remaining) =
      some (.finite (max 0 ((cfg.policy.limit : Int) - (count : Int)))) := by
  simp [servedWith, Evaluate]

theorem serve_length (cfg : ServerConfig) (s : CounterStore) (reqs : List Request) :
    (serve cfg s reqs).2.length = reqs.length := by
  induction reqs generalizing s with
  | nil => rfl
  | cons r rest ih => simp [serve, ih]

/-! ## The server: requests of one key within one window -/

theorem put_same (s : CounterStore) (k : RateLimitKey) (e : WindowState) :
    (s.put k e) k = some e := by
  simp [CounterStore.put]

theorem serve_live_window (cfg : ServerConfig) (k : RateLimitKey) (ws E : Nat)
    (reqs : List Request) :
    ∀ (s : CounterStore) (c : Nat),
      s k = some { count := c, windowStart := ws, expiresAt := E } →
      (∀ r ∈ reqs, r.path = "/redis-rate-limiter" ∧ cfg.extractKey r = k ∧
        r.fault = none ∧ r.now < E) →
      ∀ (i : Nat) (r : Request), reqs[i]? = some r →
        (serve cfg s reqs).2[i]? = some (servedWith cfg r (c + i + 1) (E - r.now)) := by
  induction reqs with
  | nil => intro s c _ _ i r hr; simp at hr
  | cons r0 rest ih =>
    intro s c hentry hreqs i r hr
    obtain ⟨hpath, hkey, hfault, hnow⟩ := hreqs r0 (List.mem_cons_self _ _)
    have hstep := handle_redis_live cfg s r0 { count := c, windowStart := ws, expiresAt := E }
      hpath hfault (by rw [hkey]; exact hentry) hnow
    rw [hkey] at hstep
    cases i with
    | zero =>
      simp only [List.getElem?_cons_zero, Option.some.injEq] at hr
      subst hr
      simp [serve, hstep]
    | succ j =>
      simp only [List.getElem?_cons_succ] at hr
      have hrest := ih (s.put k { count := c + 1, windowStart := ws, expiresAt := E }) (c + 1)
        (put_same _ _ _) (fun r hmem => hreqs r (List.mem_cons_of_mem _ hmem)) j r hr
      have harith : c + 1 + j + 1 = c + (j + 1) + 1 := by omega
      rw [harith] at hrest
      simpa [serve, hstep] using hrest

theorem serve_fresh_window (cfg : ServerConfig) (s : CounterStore) (k : RateLimitKey)
    (t0 : Nat) (reqs : List Request)
    (hfresh : liveEntry s t0 k = none)
    (hreqs : ∀ r ∈ reqs, r.path = "/redis-rate-limiter" ∧ cfg.extractKey r = k ∧
      r.fault = none ∧ t0 ≤ r.now ∧ r.now < t0 + cfg.policy.windowMillis) :
    ∀ (i : Nat) (r : Request), reqs[i]? = some r →
      ∃ ttl, (serve cfg s reqs).2[i]? = some (servedWith cfg r (i + 1) ttl) := by
  cases reqs with
  | nil => intro i r hr; simp at hr
  | cons r0 rest =>
    intro i r hr
    obtain ⟨hpath, hkey, hfault, hge, _⟩ := hreqs r0 (List.mem_cons_self _ _)
    have hstep := handle_redis_fresh cfg s r0 hpath hfault
      (by rw [hkey]; exact liveEntry_none_mono s k t0 r0.now hfresh hge)
    rw [hkey] at hstep
    cases i with
    | zero =>
      simp only [List.getElem?_cons_zero, Option.some.injEq] at hr
      subst hr
      exact ⟨cfg.policy.windowMillis, by simp [serve, hstep]⟩
    | succ j =>
      simp only [List.getElem?_cons_succ] at hr
      have hrest := serve_live_window cfg k r0.now (r0.now + cfg.policy.windowMillis) rest
        (s.put k { count := 1, windowStart := r0.now,
                   expiresAt := r0.now + cfg.policy.windowMillis }) 1
        (put_same _ _ _)
        (fun r hmem => by
          obtain ⟨h1, h2, h3, _, h5⟩ := hreqs r (List.mem_cons_of_mem _ hmem)
          exact ⟨h1, h2, h3, by omega⟩) j r hr
      have harith : 1 + j + 1 = j + 1 + 1 := by omega
      rw [harith] at hrest
      exact ⟨r0.now + cfg.policy.windowMillis - r.now, by simpa [serve, hstep] using hrest⟩

theorem countStatus_cons (status : Nat) (x : Served) (xs : List Served) :
    countStatus status (x :: xs) =
      (if x.response.status = status then 1 else 0) + countStatus status xs := by
  by_cases h : x.response.status = status
  · simp [countStatus, List.filter_cons, h]; omega
  · simp [countStatus, List.filter_cons, h]

theorem serve_live_count (cfg : ServerConfig) (k : RateLimitKey) (ws E : Nat)
    (reqs : List Request) :
    ∀ (s : CounterStore) (c : Nat),
      s k = some { count := c, windowStart := ws, expiresAt := E } →
      (∀ r ∈ reqs, r.path = "/redis-rate-limiter" ∧ cfg.extractKey r = k ∧
        r.fault = none ∧ r.now < E) →
      countStatus 200 (serve cfg s reqs).2 = min reqs.length (cfg.policy.limit - c) ∧
      countStatus 429 (serve cfg s reqs).2 = reqs.length - (cfg.policy.limit - c) := by
  induction reqs with
  | nil => intro s c _ _; simp [serve, countStatus]
  | cons r0 rest ih =>
    intro s c hentry hreqs
    obtain ⟨hpath, hkey, hfault, hnow⟩ := hreqs r0 (List.mem_cons_self _ _)
    have hstep := handle_redis_live cfg s r0 { count := c, windowStart := ws, expiresAt := E }
      hpath hfault (by rw [hkey]; exact hentry) hnow
    rw [hkey] at hstep
    obtain ⟨h200, h429⟩ := ih (s.put k { count := c + 1, windowStart := ws, expiresAt := E })
      (c + 1) (put_same _ _ _) (fun r hmem => hreqs r (List.mem_cons_of_mem _ hmem))
    simp only [serve, hstep, countStatus_cons, servedWith_status, h200, h429,
      List.length_cons]
    by_cases hc : c + 1 ≤ cfg.policy.limit
    · simp only [hc, if_true]
      constructor
      · simp only [Nat.min_def]; split_ifs <;> omega
      · simp; omega
    · simp only [hc, if_false]
      constructor
      · simp only [Nat.min_def]; split_ifs <;> omega
      · simp; omega

theorem serve_fresh_count (cfg : ServerConfig) (s : CounterStore) (k : RateLimitKey)
    (t0 : Nat) (reqs : List Request)
    (hfresh : liveEntry s t0 k = none)
    (hreqs : ∀ r ∈ reqs, r.path = "/redis-rate-limiter" ∧ cfg.extractKey r = k ∧
      r.fault = none ∧ t0 ≤ r.now ∧ r.now < t0 + cfg.policy.windowMillis) :
    countStatus 200 (serve cfg s reqs).2 = min reqs.length cfg.policy.limit ∧
    countStatus 429 (serve cfg s reqs).2 = reqs.length - cfg.policy.limit := by
  cases reqs with
  | nil => simp [serve, countStatus]
  | cons r0 rest =>
    obtain ⟨hpath, hkey, hfault, hge, _⟩ := hreqs r0 (List.mem_cons_self _ _)
    have hstep := handle_redis_fresh cfg s r0 hpath hfault
      (by rw [hkey]; exact liveEntry_none_mono s k t0 r0.now hfresh hge)
    rw [hkey] at hstep
    obtain ⟨h200, h429⟩ := serve_live_count cfg k r0.now
      (r0.now + cfg.policy.windowMillis) rest
      (s.put k { count := 1, windowStart := r0.now,
                 expiresAt := r0.now + cfg.policy.windowMillis }) 1
      (put_same _ _ _)
      (fun r hmem => by
        obtain ⟨h1, h2, h3, _, h5⟩ := hreqs r (List.mem_cons_of_mem _ hmem)
        exact ⟨h1, h2, h3, by omega⟩)
    simp only [serve, hstep, countStatus_cons, servedWith_status, h200, h429,
      List.length_cons]
    by_cases hc : 1 ≤ cfg.policy.limit
    · simp only [hc, if_true]
      constructor
      · simp only [Nat.min_def]; split_ifs <;> omega
      · simp; omega
    · simp only [hc, if_false]
      constructor
      · simp only [Nat.min_def]; split_ifs <;> omega
      · simp; omega

theorem served_in_fresh_window (cfg : ServerConfig) (s : CounterStore) (k : RateLimitKey)
    (t0 : Nat) (reqs : List Request)
    (hfresh : liveEntry s t0 k = none)
    (hreqs : ∀ r ∈ reqs, r.path = "/redis-rate-limiter" ∧ cfg.extractKey r = k ∧
      r.fault = none ∧ t0 ≤ r.now ∧ r.now < t0 + cfg.policy.windowMillis)
    (i : Nat) (x : Served) (hx : (serve cfg s reqs).2[i]? = some x) :
    ∃ r ttl, x = servedWith cfg r (i + 1) ttl := by
  have hi : i < reqs.length := by
    have := (List.getElem?_eq_some_iff.mp hx).1
    rwa [serve_length] at this
  obtain ⟨ttl, httl⟩ := serve_fresh_window cfg s k t0 reqs hfresh hreqs i reqs[i]
    (List.getElem?_eq_getElem hi)
  rw [hx] at httl
  exact ⟨reqs[i], ttl, Option.some.inj httl⟩

theorem serverEnv_no_rate_limiter_status (cfg : ServerConfig) (ambient : Nat → Ambient)
    (w : ServerWorld) (params : Params) :
    (serverEnv cfg ambient w "http://localhost:8080/no-rate-limiter" params).2.status = 200 := by
  simp [serverEnv, pathOf_no_rate_limiter, handle_no_rate_limiter]

theorem no_iterations_samples (cfg : ServerConfig) (ambient : Nat → Ambient)
    (params : Params) (n : Nat) (st : K6State ServerWorld) :
    samplesOf "check_failure_rate"
        (iterations (no_rate_limiting_demo.default (serverEnv cfg ambient) params) n st) =
      samplesOf "check_failure_rate" st ++ List.replicate n false := by
  induction n generalizing st with
  | zero => simp [iterations]
  | succ n ih =>
    rw [iterations, ih, no_samplesOf, List.replicate_succ, List.append_assoc]
    simp [check, no_rate_limiting_demo.checks, serverEnv_no_rate_limiter_status]

/-! ## The endpoints -/

/-- C4: `GET /no-rate-limiter` always returns 200 under any load: for every
sequence of requests to that endpoint (any store contents, arrival times and
store failures) every response has status 200; so when the script runs
against the server the check `we expect all requests to pass` passes on every
iteration and every sample added to `check_failure_rate` is false. -/
theorem no_rate_limiter_always_ok (cfg : ServerConfig) (s : CounterStore)
    (reqs : List Request) (hpath : ∀ r ∈ reqs, r.path = "/no-rate-limiter") :
    (serve cfg s reqs).2.length = reqs.length
    ∧ (∀ x ∈ (serve cfg s reqs).2, x.response.status = 200)
    ∧ ∀ (ambient : Nat → Ambient) (params : Params) (w : ServerWorld),
        check (serverEnv cfg ambient w "http://localhost:8080/no-rate-limiter" params).2
            no_rate_limiting_demo.checks = true
        ∧ ∀ n : Nat,
            samplesOf "check_failure_rate"
              (iterations (no_rate_limiting_demo.default (serverEnv cfg ambient) params) n
                (K6State.init w)) = List.replicate n false := by
  refine ⟨serve_length cfg s reqs, ?_, ?_⟩
  · induction reqs generalizing s with
    | nil => intro x hx; simp [serve] at hx
    | cons r0 rest ih =>
      intro x hx
      have hstep := handle_no_rate_limiter cfg s r0 (hpath r0 (List.mem_cons_self _ _))
      simp only [serve, hstep, List.mem_cons] at hx
      rcases hx with hx | hx
      · rw [hx]
      · exact ih s (fun r hmem => hpath r (List.mem_cons_of_mem _ hmem)) x hx
  · intro ambient params w
    refine ⟨?_, ?_⟩
    · simp [check, no_rate_limiting_demo.checks, serverEnv_no_rate_limiter_status]
    · intro n
      rw [no_iterations_samples]
      simp [samplesOf, K6State.init]

theorem no_rate_limiter_always_ok_witness :
    (∀ r ∈ [plainRequest 0 none, plainRequest 0 (some .StoreUnavailable)],
        r.path = "/no-rate-limiter")
    ∧ (serve (demoConfig 1 .failClosed) CounterStore.empty
          [plainRequest 0 none, plainRequest 0 (some .StoreUnavailable)]).2.length = 2
    ∧ ∀ x ∈ (serve (demoConfig 1 .failClosed) CounterStore.empty
          [plainRequest 0 none, plainRequest 0 (some .StoreUnavailable)]).2,
        x.response.status = 200 :=
  ⟨by decide,
    (no_rate_limiter_always_ok (demoConfig 1 .failClosed) CounterStore.empty
      [plainRequest 0 none, plainRequest 0 (some .StoreUnavailable)] (by decide)).1,
    (no_rate_limiter_always_ok (demoConfig 1 .failClosed) CounterStore.empty
      [plainRequest 0 none, plainRequest 0 (some .StoreUnavailable)] (by decide)).2.1⟩

/-- C5, as the claim states it, fails when the store cannot be reached: with
limit 1 and the fail-closed policy the first request of a window, whose store
call fails with `StoreUnavailable`, is denied with 429 although N = 1 ≤
limit; and with the fail-open policy the second request of a window, whose
store call fails, is allowed although it is the (limit+1)-th. -/
theorem window_admission_fails_on_store_failure :
    (0 < (demoConfig 1 .failClosed).policy.limit
      ∧ liveEntry CounterStore.empty 0 "a" = none
      ∧ (∀ r ∈ [redisRequest 0 (some .StoreUnavailable)],
          r.path = "/redis-rate-limiter" ∧ (demoConfig 1 .failClosed).extractKey r = "a"
            ∧ 0 ≤ r.now ∧ r.now < 0 + (demoConfig 1 .failClosed).policy.windowMillis)
      ∧ (serve (demoConfig 1 .failClosed) CounterStore.empty
            [redisRequest 0 (some .StoreUnavailable)]).2.map
          (fun x => (x.decision.map (fun d => d.allowed), x.response.status))
          = [(some false, 429)])
    ∧ (serve (demoConfig 1 .failOpen) CounterStore.empty
          [redisRequest 0 none, redisRequest 0 (some .StoreUnavailable)]).2.map
        (fun x => (x.decision.map (fun d => d.allowed), x.response.status))
        = [(some true, 200), (some true, 200)] := by
  decide

/-- C5 (amended): for every key, every limit > 0 and every sequence of
requests to `/redis-rate-limiter` for that key within one window that starts
with no active entry, when the store call of each request succeeds: every
request is answered; the first N requests are all allowed (200) whenever
N ≤ limit; the request that brings the count to exactly limit is allowed with
remaining = 0; and the (limit+1)-th request is denied (429). -/
theorem window_admission (cfg : ServerConfig) (s : CounterStore) (k : RateLimitKey)
    (t0 : Nat) (reqs : List Request)
    (hlimit : 0 < cfg.policy.limit)
    (hfresh : liveEntry s t0 k = none)
    (hreqs : ∀ r ∈ reqs, r.path = "/redis-rate-limiter" ∧ cfg.extractKey r = k ∧
      r.fault = none ∧ t0 ≤ r.now ∧ r.now < t0 + cfg.policy.windowMillis) :
    (serve cfg s reqs).2.length = reqs.length
    ∧ (∀ (i : Nat) (x : Served), (serve cfg s reqs).2[i]? = some x →
        i + 1 ≤ cfg.policy.limit →
        x.decision.map (fun d => d.allowed) = some true ∧ x.response.status = 200)
    ∧ (∀ x : Served, (serve cfg s reqs).2[cfg.policy.limit - 1]? = some x →
        x.decision.map (fun d => d.allowed) = some true
        ∧ x.decision.map (fun d => d.remaining) = some (.finite 0)
        ∧ x.response.status = 200)
    ∧ (∀ x : Served, (serve cfg s reqs).2[cfg.policy.limit]? = some x →
        x.decision.map (fun d => d.allowed) = some false ∧ x.response.status = 429) := by
  refine ⟨serve_length cfg s reqs, ?_, ?_, ?_⟩
  · intro i x hx hi
    obtain ⟨r, ttl, rfl⟩ := served_in_fresh_window cfg s k t0 reqs hfresh hreqs i x hx
    rw [servedWith_allowed, servedWith_status]
    simp [hi]
  · intro x hx
    obtain ⟨r, ttl, rfl⟩ := served_in_fresh_window cfg s k t0 reqs hfresh hreqs _ x hx
    have hcount : cfg.policy.limit - 1 + 1 = cfg.policy.limit := by omega
    rw [servedWith_allowed, servedWith_remaining, servedWith_status, hcount]
    simp
  · intro x hx
    obtain ⟨r, ttl, rfl⟩ := served_in_fresh_window cfg s k t0 reqs hfresh hreqs _ x hx
    rw [servedWith_allowed, servedWith_status]
    simp

theorem window_admission_witness :
    (0 < (demoConfig 2 .failClosed).policy.limit
      ∧ liveEntry CounterStore.empty 5 "a" = none
      ∧ (∀ r ∈ [redisRequest 5 none, redisRequest 7 none, redisRequest 1004 none],
          r.path = "/redis-rate-limiter" ∧ (demoConfig 2 .failClosed).extractKey r = "a"
            ∧ r.fault = none ∧ 5 ≤ r.now
            ∧ r.now < 5 + (demoConfig 2 .failClosed).policy.windowMillis))
    ∧ ((serve (demoConfig 2 .failClosed) CounterStore.empty
          [redisRequest 5 none, redisRequest 7 none, redisRequest 1004 none]).2.length = 3
      ∧ (∀ x : Served, (serve (demoConfig 2 .failClosed) CounterStore.empty
            [redisRequest 5 none, redisRequest 7 none, redisRequest 1004 none]).2[1]? = some x →
          x.decision.map (fun d => d.allowed) = some true
          ∧ x.decision.map (fun d => d.remaining) = some (.finite 0)
          ∧ x.response.status = 200)
      ∧ (∀ x : Served, (serve (demoConfig 2 .failClosed) CounterStore.empty
            [redisRequest 5 none, redisRequest 7 none, redisRequest 1004 none]).2[2]? = some x →
          x.decision.map (fun d => d.allowed) = some false ∧ x.response.status = 429)) :=
  ⟨⟨by decide, by decide, by decide⟩,
    (window_admission (demoConfig 2 .failClosed) CounterStore.empty "a" 5
      [redisRequest 5 none, redisRequest 7 none, redisRequest 1004 none]
      (by decide) (by decide) (by decide)).1,
    (window_admission (demoConfig 2 .failClosed) CounterStore.empty "a" 5
      [redisRequest 5 none, redisRequest 7 none, redisRequest 1004 none]
      (by decide) (by decide) (by decide)).2.2.1,
    (window_admission (demoConfig 2 .failClosed) CounterStore.empty "a" 5
      [redisRequest 5 none, redisRequest 7 none, redisRequest 1004 none]
      (by decide) (by decide) (by decide)).2.2.2⟩

/-- C6, as the claim states it, fails when the store cannot be reached: with
limit 1, M = 1 and the fail-open policy, two simultaneous requests for one key
whose store calls fail with `StoreUnavailable` are both allowed
(over-admission); with the fail-closed policy both are denied
(under-admission). -/
theorem burst_admission_fails_on_store_failure :
    [redisRequest 0 (some .StoreUnavailable), redisRequest 0 (some .StoreUnavailable)].length
        = (demoConfig 1 .failOpen).policy.limit + 1
    ∧ (∀ r ∈ [redisRequest 0 (some .StoreUnavailable),
              redisRequest 0 (some .StoreUnavailable)],
        r.path = "/redis-rate-limiter" ∧ (demoConfig 1 .failOpen).extractKey r = "a"
          ∧ r.now = 0)
    ∧ countStatus 200 (serve (demoConfig 1 .failOpen) CounterStore.empty
        [redisRequest 0 (some .StoreUnavailable),
         redisRequest 0 (some .StoreUnavailable)]).2 = 2
    ∧ countStatus 429 (serve (demoConfig 1 .failOpen) CounterStore.empty
        [redisRequest 0 (some .StoreUnavailable),
         redisRequest 0 (some .StoreUnavailable)]).2 = 0
    ∧ countStatus 200 (serve (demoConfig 1 .failClosed) CounterStore.empty
        [redisRequest 0 (some .StoreUnavailable),
         redisRequest 0 (some .StoreUnavailable)]).2 = 0
    ∧ countStatus 429 (serve (demoConfig 1 .failClosed) CounterStore.empty
        [redisRequest 0 (some .StoreUnavailable),
         redisRequest 0 (some .StoreUnavailable)]).2 = 2 := by
  decide

/-- C6 (amended): when limit + M requests for the same key are fired at the
same instant into a window with no active entry and the store call of each
request succeeds, then in whatever order the store serves them exactly limit
are allowed (200) and exactly M are denied (429), for every limit and every
M ≥ 0; a request is allowed exactly when it is answered with 200. -/
theorem burst_admits_exactly_limit (cfg : ServerConfig) (s : CounterStore)
    (k : RateLimitKey) (t M : Nat) (reqs : List Request)
    (hwindow : 0 < cfg.policy.windowMillis)
    (hfresh : liveEntry s t k = none)
    (hlen : reqs.length = cfg.policy.limit + M)
    (hreqs : ∀ r ∈ reqs, r.path = "/redis-rate-limiter" ∧ cfg.extractKey r = k ∧
      r.fault = none ∧ r.now = t) :
    countStatus 200 (serve cfg s reqs).2 = cfg.policy.limit
    ∧ countStatus 429 (serve cfg s reqs).2 = M
    ∧ ∀ x ∈ (serve cfg s reqs).2,
        x.decision.map (fun d => d.allowed) = some (decide (x.response.status = 200)) := by
  have hreqs' : ∀ r ∈ reqs, r.path = "/redis-rate-limiter" ∧ cfg.extractKey r = k ∧
      r.fault = none ∧ t ≤ r.now ∧ r.now < t + cfg.policy.windowMillis := by
    intro r hmem
    obtain ⟨h1, h2, h3, h4⟩ := hreqs r hmem
    exact ⟨h1, h2, h3, by omega, by omega⟩
  obtain ⟨h200, h429⟩ := serve_fresh_count cfg s k t reqs hfresh hreqs'
  refine ⟨?_, ?_, ?_⟩
  · rw [h200, hlen]; simp
  · rw [h429, hlen]; simp
  · intro x hx
    obtain ⟨i, hi, hget⟩ := List.getElem_of_mem hx
    obtain ⟨r, ttl, rfl⟩ := served_in_fresh_window cfg s k t reqs hfresh hreqs' i x
      (by rw [List.getElem?_eq_getElem hi, hget])
    rw [servedWith_allowed, servedWith_status]
    by_cases hc : i + 1 ≤ cfg.policy.limit <;> simp [hc]

theorem burst_admits_exactly_limit_witness :
    (0 < (demoConfig 2 .failOpen).policy.windowMillis
      ∧ liveEntry CounterStore.empty 3 "a" = none
      ∧ [redisRequest 3 none, redisRequest 3 none, redisRequest 3 none].length
          = (demoConfig 2 .failOpen).policy.limit + 1
      ∧ (∀ r ∈ [redisRequest 3 none, redisRequest 3 none, redisRequest 3 none],
          r.path = "/redis-rate-limiter" ∧ (demoConfig 2 .failOpen).extractKey r = "a"
            ∧ r.fault = none ∧ r.now = 3))
    ∧ countStatus 200 (serve (demoConfig 2 .failOpen) CounterStore.empty
        [redisRequest 3 none, redisRequest 3 none, redisRequest 3 none]).2 = 2
    ∧ countStatus 429 (serve (demoConfig 2 .failOpen) CounterStore.empty
        [redisRequest 3 none, redisRequest 3 none, redisRequest 3 none]).2 = 1 :=
  ⟨⟨by decide, by decide, by decide, by decide⟩,
    (burst_admits_exactly_limit (demoConfig 2 .failOpen) CounterStore.empty "a" 3 1
      [redisRequest 3 none, redisRequest 3 none, redisRequest 3 none]
      (by decide) (by decide) (by decide) (by decide)).1,
    (burst_admits_exactly_limit (demoConfig 2 .failOpen) CounterStore.empty "a" 3 1
      [redisRequest 3 none, redisRequest 3 none, redisRequest 3 none]
      (by decide) (by decide) (by decide) (by decide)).2.1⟩
